import Mathlib

/-!
Verification of the robocopy-logs-parser repository (`src/robocopy.rs`).

The parser is embedded shallowly over `List Char`: each Rust string helper
(`trim`, `split_once`, `split_ascii_whitespace`, `str::parse::<u128>`,
`eq_ignore_ascii_case`) is translated to an executable Lean function, the
result record mirrors `RobocopyResult`, and the line loop `read_file` becomes
a fold over the decoded lines.  Whitespace is modelled as the ASCII whitespace
characters that occur in robocopy logs; `chrono`'s timestamp parsing for the
fixed format string is modelled by an executable parser over the same
character lists.  I/O is modelled by an `Option` input (`none` = the file
could not be opened) and per-line decode failures by `Option` lines.
-/

namespace Robocopy

/-- ASCII whitespace as tested by `char::is_whitespace` /
`split_ascii_whitespace` on the characters occurring in robocopy logs
(space, tab, newline, carriage return, form feed, vertical tab). -/
def isWS (c : Char) : Bool :=
  c = ' ' || c = '\t' || c = '\n' || c = '\r' || c = '\x0c' || c = '\x0b'

/-- Rust `str::trim_start`. -/
def trimLeft (l : List Char) : List Char := l.dropWhile isWS

/-- Rust `str::trim_end`. -/
def trimRight (l : List Char) : List Char := (l.reverse.dropWhile isWS).reverse

/-- Rust `str::trim`. -/
def trim (l : List Char) : List Char := trimRight (trimLeft l)

/-- Numeric value of a list of ASCII digits; `none` if empty or any
non-digit character occurs.  Helper for `parseU128`. -/
def digitsVal : List Char → Option Nat
  | [] => none
  | [c] => if c.isDigit then some (c.toNat - '0'.toNat) else none
  | c :: rest =>
    if c.isDigit then
      match digitsVal rest with
      | some n => some ((c.toNat - '0'.toNat) * 10 ^ rest.length + n)
      | none => none
    else none

/-- Rust `str::parse::<u128>`: an optional leading `+`, then one or more ASCII
digits, value below `2^128`. -/
def parseU128 (l : List Char) : Option Nat :=
  let body := match l with
    | '+' :: rest => rest
    | _ => l
  match digitsVal body with
  | some n => if n < 2 ^ 128 then some n else none
  | none => none

/-- Rust `str::split_once(sep)`: split at the first occurrence of `sep`. -/
def splitOnce (sep : Char) : List Char → Option (List Char × List Char)
  | [] => none
  | c :: rest =>
    if c = sep then some ([], rest)
    else match splitOnce sep rest with
      | some (k, v) => some (c :: k, v)
      | none => none

/-- Accumulating helper for `splitAsciiWhitespace`. -/
def splitWSAux : List Char → List Char → List (List Char)
  | [], acc => if acc.isEmpty then [] else [acc.reverse]
  | c :: rest, acc =>
    if isWS c then
      if acc.isEmpty then splitWSAux rest []
      else acc.reverse :: splitWSAux rest []
    else splitWSAux rest (c :: acc)

/-- Rust `str::split_ascii_whitespace`: maximal runs of non-whitespace
characters, in order; empty tokens never occur. -/
def splitAsciiWhitespace (l : List Char) : List (List Char) := splitWSAux l []

/-- ASCII lower-casing of one character (`u8::to_ascii_lowercase`). -/
def toLowerAscii (c : Char) : Char :=
  if 'A' ≤ c ∧ c ≤ 'Z' then Char.ofNat (c.toNat + 32) else c

/-- Rust `str::eq_ignore_ascii_case` on character lists. -/
def eqIgnoreAsciiCase : List Char → List Char → Bool
  | [], [] => true
  | a :: as_, b :: bs => toLowerAscii a = toLowerAscii b && eqIgnoreAsciiCase as_ bs
  | _, _ => false

/-- Struct `CopyStat` (robocopy.rs): the six unsigned counters of one statistics
line. -/
structure CopyStat where
  total : Nat
  copied : Nat
  skipped : Nat
  mismatch : Nat
  failed : Nat
  extras : Nat
deriving DecidableEq

/-- Struct `Stats` (robocopy.rs): the three optional per-category statistics. -/
structure Stats where
  dirs : Option CopyStat
  files : Option CopyStat
  bytes : Option CopyStat
deriving DecidableEq

/-- Function `parse_stats` (robocopy.rs): whitespace-tokenize the value, require
exactly six tokens, parse each as `u128`; any failure yields `none`
(in the source, an `Err`). -/
def parse_stats (value : List Char) : Option CopyStat :=
  match splitAsciiWhitespace value with
  | [f0, f1, f2, f3, f4, f5] =>
    match parseU128 f0, parseU128 f1, parseU128 f2,
          parseU128 f3, parseU128 f4, parseU128 f5 with
    | some t, some c, some s, some m, some fa, some e =>
      some ⟨t, c, s, m, fa, e⟩
    | _, _, _, _, _, _ => none
  | _ => none

/-- Function `parse_speed` (robocopy.rs): split the value at the first space; the
unit must equal `"Bytes/sec."` up to ASCII case, and the numeric part must
parse as `u128`. -/
def parse_speed (value : List Char) : Option Nat :=
  match splitOnce ' ' value with
  | none => none
  | some (v, unit) =>
    if eqIgnoreAsciiCase unit ("Bytes/sec.".toList) then parseU128 v
    else none

/-- The components of a parsed timestamp.  `Local.datetime_from_str`
attaches the process-local time zone to these naive components; the zone is
ambient environment, so the embedding keeps the components themselves. -/
structure DateTime where
  year : Int
  month : Nat
  day : Nat
  hour : Nat
  minute : Nat
  second : Nat
deriving DecidableEq

/-- Strip `pat` from the front of `s` comparing ASCII-case-insensitively,
as chrono's name scanners do. -/
def stripCI : List Char → List Char → Option (List Char)
  | [], s => some s
  | _ :: _, [] => none
  | p :: ps, c :: cs =>
    if toLowerAscii p = toLowerAscii c then stripCI ps cs else none

/-- Match one calendar name as chrono does: the three-letter abbreviation
case-insensitively, then the remainder of the long form if it is present. -/
def matchNameCI (long : List Char) (s : List Char) : Option (List Char) :=
  match stripCI (long.take 3) s with
  | none => none
  | some rest =>
    match stripCI (long.drop 3) rest with
    | some rest2 => some rest2
    | none => some rest

/-- Try each name in turn, returning the index of the first match and the
remaining input. -/
def matchOneOf : List (List Char) → List Char → Nat → Option (Nat × List Char)
  | [], _, _ => none
  | n :: ns, s, i =>
    match matchNameCI n s with
    | some rest => some (i, rest)
    | none => matchOneOf ns s (i + 1)

def weekdayNames : List (List Char) :=
  ["Sunday", "Monday", "Tuesday", "Wednesday", "Thursday", "Friday",
   "Saturday"].map String.toList

def monthNames : List (List Char) :=
  ["January", "February", "March", "April", "May", "June", "July",
   "August", "September", "October", "November", "December"].map
    String.toList

/-- chrono numeric field: optional leading whitespace, then one or more
ASCII digits, read greedily. -/
def readNum (s : List Char) : Option (Nat × List Char) :=
  let s := s.dropWhile isWS
  let digits := s.takeWhile Char.isDigit
  match digitsVal digits with
  | some n => some (n, s.dropWhile Char.isDigit)
  | none => none

/-- One literal character of the format string. -/
def expectLit (c : Char) : List Char → Option (List Char)
  | [] => none
  | x :: xs => if x = c then some xs else none

/-- Sakamoto's day-of-week algorithm over the proleptic Gregorian calendar
(floor division), `0` = Sunday. -/
def dayOfWeek (y : Int) (m d : Nat) : Int :=
  let t : List Int := [0, 3, 2, 5, 0, 3, 5, 1, 4, 6, 2, 4]
  let y := if m < 3 then y - 1 else y
  (y + y.fdiv 4 - y.fdiv 100 + y.fdiv 400 + t.getD (m - 1) 0 + (d : Int)).fmod 7

def isLeapYear (y : Int) : Bool := y.fmod 4 = 0 ∧ (y.fmod 100 ≠ 0 ∨ y.fmod 400 = 0)

def daysInMonth (y : Int) (m : Nat) : Nat :=
  if m = 2 then (if isLeapYear y then 29 else 28)
  else ([31, 28, 31, 30, 31, 30, 31, 31, 30, 31, 30, 31] : List Nat).getD (m - 1) 0

/-- Modelled from `chrono`: `Local.datetime_from_str` with the fixed format
`DATE_TIME_FORMAT = "%A, %B %e, %Y %r"` (robocopy.rs line 11), i.e. full
weekday name, `", "`, full month name, space-padded day, `", "`, year,
12-hour clock `%I:%M:%S %p`.  Literal spaces of the format consume any run
of whitespace, numeric fields skip leading whitespace, names match
case-insensitively, the whole input must be consumed, and the parsed fields
must form a consistent calendar date (weekday included) and 12-hour time
within chrono's supported year range. -/
def parseDateTime (s : List Char) : Option DateTime :=
  match matchOneOf weekdayNames s 0 with
  | none => none
  | some (wd, s) =>
  match expectLit ',' s with
  | none => none
  | some s =>
  match matchOneOf monthNames (s.dropWhile isWS) 0 with
  | none => none
  | some (m1, s) =>
  match readNum s with
  | none => none
  | some (d, s) =>
  match expectLit ',' s with
  | none => none
  | some s =>
  match readNum s with
  | none => none
  | some (y, s) =>
  match readNum s with
  | none => none
  | some (h12, s) =>
  match expectLit ':' s with
  | none => none
  | some s =>
  match readNum s with
  | none => none
  | some (mi, s) =>
  match expectLit ':' s with
  | none => none
  | some s =>
  match readNum s with
  | none => none
  | some (sec, s) =>
  match matchOneOf (["AM", "PM"].map String.toList) (s.dropWhile isWS) 0 with
  | none => none
  | some (ampm, s) =>
  if s ≠ [] then none
  else
    let yr : Int := (y : Int)
    let month := m1 + 1
    if d = 0 ∨ d > daysInMonth yr month then none
    else if dayOfWeek yr month d ≠ (wd : Int) then none
    else if h12 = 0 ∨ h12 > 12 then none
    else if mi > 59 ∨ sec > 59 then none
    else if yr > 262143 then none
    else some ⟨yr, month, d, h12 % 12 + ampm * 12, mi, sec⟩

/-- Struct `RobocopyResult` (robocopy.rs): the accumulated output of one parse. -/
structure RobocopyResult where
  started : Option DateTime
  ended : Option DateTime
  source : Option (List Char)
  destination : Option (List Char)
  files : Option (List Char)
  options : Option (List Char)
  speed : Option Nat
  stats : Stats
deriving DecidableEq

/-- Method `RobocopyResult::default()`: every field absent. -/
def emptyResult : RobocopyResult :=
  ⟨none, none, none, none, none, none, none, ⟨none, none, none⟩⟩

/-- Method `RobocopyResult::parse_header` (robocopy.rs): dispatch a trimmed
header key/value.  The `Bool` records whether a warning was logged (an
unknown key or a failed timestamp conversion). -/
def parse_header (r : RobocopyResult) (key value : List Char) :
    RobocopyResult × Bool :=
  if key = "Started".toList then
    match parseDateTime value with
    | some dt => ({ r with started := some dt }, false)
    | none => (r, true)
  else if key = "Source".toList then ({ r with source := some value }, false)
  else if key = "Dest".toList then ({ r with destination := some value }, false)
  else if key = "Files".toList then ({ r with files := some value }, false)
  else if key = "Options".toList then ({ r with options := some value }, false)
  else (r, true)

/-- Method `RobocopyResult::parse_footer` (robocopy.rs): dispatch a trimmed
footer key/value.  The `Bool` records whether a warning was logged. -/
def parse_footer (r : RobocopyResult) (key value : List Char) :
    RobocopyResult × Bool :=
  if key = "Ended".toList then
    match parseDateTime value with
    | some dt => ({ r with ended := some dt }, false)
    | none => (r, true)
  else if key = "Speed".toList then
    match parse_speed value with
    | some n => ({ r with speed := some n }, false)
    | none => (r, true)
  else if key = "Dirs".toList then
    match parse_stats value with
    | some cs => ({ r with stats := { r.stats with dirs := some cs } }, false)
    | none => (r, true)
  else if key = "Files".toList then
    match parse_stats value with
    | some cs => ({ r with stats := { r.stats with files := some cs } }, false)
    | none => (r, true)
  else if key = "Bytes".toList then
    match parse_stats value with
    | some cs => ({ r with stats := { r.stats with bytes := some cs } }, false)
    | none => (r, true)
  else (r, true)

/-- Function `split_key_value` (robocopy.rs): split a line at the first colon and
trim both halves. -/
def split_key_value (line : List Char) : Option (List Char × List Char) :=
  match splitOnce ':' (trim line) with
  | some (k, v) => some (trim k, trim v)
  | none => none

/-- The mutable state of the `read_file` loop: the section counter
(`let mut section = 0`), the result record being accumulated, and the
number of warnings logged so far. -/
structure ParseState where
  sectionNo : Nat
  result : RobocopyResult
  warnings : Nat
deriving DecidableEq

/-- The initial loop state: section counter `0`, default result, no
warnings. -/
def initState : ParseState := ⟨0, emptyResult, 0⟩

/-- The body of the `read_file` loop for one successfully decoded line:
trim; skip blank lines; a line of only dashes bumps the section counter;
in sections 2 and 4 a colon line is dispatched to the header/footer
parser; everything else is skipped. -/
def processLine (st : ParseState) (line : List Char) : ParseState :=
  let l := trim line
  if l.isEmpty then st
  else if (l.dropWhile (fun c => c = '-')).isEmpty then
    { st with sectionNo := st.sectionNo + 1 }
  else if st.sectionNo = 2 then
    match split_key_value l with
    | some (k, v) =>
      let (r, w) := parse_header st.result k v
      { st with result := r, warnings := st.warnings + (if w then 1 else 0) }
    | none => st
  else if st.sectionNo = 4 then
    match split_key_value l with
    | some (k, v) =>
      let (r, w) := parse_footer st.result k v
      { st with result := r, warnings := st.warnings + (if w then 1 else 0) }
    | none => st
  else st

/-- One iteration of the `read_file` loop: a line that failed to decode
(`Err` from `lines()`) is logged and skipped; a decoded line is processed. -/
def processLineResult (st : ParseState) : Option (List Char) → ParseState
  | none => { st with warnings := st.warnings + 1 }
  | some l => processLine st l

/-- The whole `read_file` loop over the decoded line stream. -/
def parseLines (lines : List (Option (List Char))) : ParseState :=
  lines.foldl processLineResult initState

/-- Method `RobocopyResult::read_file` (robocopy.rs): `none` models a file that
cannot be opened (`File::open(path)?` propagates the error); otherwise the
line loop runs to completion and the accumulated state is returned. -/
def read_file : Option (List (Option (List Char))) → Except Unit ParseState
  | none => Except.error ()
  | some lines => Except.ok (parseLines lines)

/-- A line (as delivered by the reader) that bumps the section counter:
successfully decoded, non-blank after trimming, and all dashes. -/
def isDividerLine : Option (List Char) → Bool
  | none => false
  | some l => !(trim l).isEmpty && ((trim l).dropWhile (fun c => c = '-')).isEmpty

/-- The number of divider lines in the input stream. -/
def countDividers (lines : List (Option (List Char))) : Nat :=
  lines.countP isDividerLine

/-! ### Dispatch equations for the recognized keys -/

lemma ph_started_some (r : RobocopyResult) (v : List Char) (dt : DateTime)
    (h : parseDateTime v = some dt) :
    parse_header r ("Started".toList) v = ({ r with started := some dt }, false) := by
  unfold parse_header
  rw [if_pos rfl, h]

lemma ph_started_none (r : RobocopyResult) (v : List Char)
    (h : parseDateTime v = none) :
    parse_header r ("Started".toList) v = (r, true) := by
  unfold parse_header
  rw [if_pos rfl, h]

lemma ph_source (r : RobocopyResult) (v : List Char) :
    parse_header r ("Source".toList) v = ({ r with source := some v }, false) := rfl

lemma ph_dest (r : RobocopyResult) (v : List Char) :
    parse_header r ("Dest".toList) v = ({ r with destination := some v }, false) := rfl

lemma ph_files (r : RobocopyResult) (v : List Char) :
    parse_header r ("Files".toList) v = ({ r with files := some v }, false) := rfl

lemma ph_options (r : RobocopyResult) (v : List Char) :
    parse_header r ("Options".toList) v = ({ r with options := some v }, false) := rfl

lemma pf_ended_some (r : RobocopyResult) (v : List Char) (dt : DateTime)
    (h : parseDateTime v = some dt) :
    parse_footer r ("Ended".toList) v = ({ r with ended := some dt }, false) := by
  unfold parse_footer
  rw [if_pos rfl, h]

lemma pf_ended_none (r : RobocopyResult) (v : List Char)
    (h : parseDateTime v = none) :
    parse_footer r ("Ended".toList) v = (r, true) := by
  unfold parse_footer
  rw [if_pos rfl, h]

lemma pf_speed_some (r : RobocopyResult) (v : List Char) (n : Nat)
    (h : parse_speed v = some n) :
    parse_footer r ("Speed".toList) v = ({ r with speed := some n }, false) := by
  unfold parse_footer
  rw [if_neg (by decide), if_pos rfl, h]

lemma pf_speed_none (r : RobocopyResult) (v : List Char)
    (h : parse_speed v = none) :
    parse_footer r ("Speed".toList) v = (r, true) := by
  unfold parse_footer
  rw [if_neg (by decide), if_pos rfl, h]

lemma pf_dirs_some (r : RobocopyResult) (v : List Char) (cs : CopyStat)
    (h : parse_stats v = some cs) :
    parse_footer r ("Dirs".toList) v =
      ({ r with stats := { r.stats with dirs := some cs } }, false) := by
  unfold parse_footer
  rw [if_neg (by decide), if_neg (by decide), if_pos rfl, h]

lemma pf_dirs_none (r : RobocopyResult) (v : List Char)
    (h : parse_stats v = none) :
    parse_footer r ("Dirs".toList) v = (r, true) := by
  unfold parse_footer
  rw [if_neg (by decide), if_neg (by decide), if_pos rfl, h]

lemma pf_files_some (r : RobocopyResult) (v : List Char) (cs : CopyStat)
    (h : parse_stats v = some cs) :
    parse_footer r ("Files".toList) v =
      ({ r with stats := { r.stats with files := some cs } }, false) := by
  unfold parse_footer
  rw [if_neg (by decide), if_neg (by decide), if_neg (by decide), if_pos rfl, h]

lemma pf_files_none (r : RobocopyResult) (v : List Char)
    (h : parse_stats v = none) :
    parse_footer r ("Files".toList) v = (r, true) := by
  unfold parse_footer
  rw [if_neg (by decide), if_neg (by decide), if_neg (by decide), if_pos rfl, h]

lemma pf_bytes_some (r : RobocopyResult) (v : List Char) (cs : CopyStat)
    (h : parse_stats v = some cs) :
    parse_footer r ("Bytes".toList) v =
      ({ r with stats := { r.stats with bytes := some cs } }, false) := by
  unfold parse_footer
  rw [if_neg (by decide), if_neg (by decide), if_neg (by decide),
    if_neg (by decide), if_pos rfl, h]

lemma pf_bytes_none (r : RobocopyResult) (v : List Char)
    (h : parse_stats v = none) :
    parse_footer r ("Bytes".toList) v = (r, true) := by
  unfold parse_footer
  rw [if_neg (by decide), if_neg (by decide), if_neg (by decide),
    if_neg (by decide), if_pos rfl, h]

/-! ### The section counter -/

lemma processLineResult_sectionNo (st : ParseState) (ol : Option (List Char)) :
    (processLineResult st ol).sectionNo =
      st.sectionNo + (if isDividerLine ol then 1 else 0) := by
  cases ol with
  | none => simp [processLineResult, isDividerLine]
  | some l =>
    simp only [processLineResult, processLine, isDividerLine]
    by_cases h1 : (trim l).isEmpty
    · simp [h1]
    · by_cases h2 : ((trim l).dropWhile (fun c => c = '-')).isEmpty
      · simp [h1, h2]
      · simp only [h1, h2, Bool.not_false, Bool.true_and, if_false,
          Bool.false_eq_true, ite_false]
        by_cases h3 : st.sectionNo = 2
        · rw [if_pos h3]
          rcases hskv : split_key_value (trim l) with _ | ⟨k, v⟩ <;> simp [hskv]
        · by_cases h4 : st.sectionNo = 4
          · rw [if_neg h3, if_pos h4]
            rcases hskv : split_key_value (trim l) with _ | ⟨k, v⟩ <;>
              simp [hskv]
          · simp [h3, h4]

lemma parseLines_sectionNo_aux (lines : List (Option (List Char)))
    (st : ParseState) :
    (lines.foldl processLineResult st).sectionNo =
      st.sectionNo + lines.countP isDividerLine := by
  induction lines generalizing st with
  | nil => simp
  | cons hd tl ih =>
    rw [List.foldl_cons, ih, List.countP_cons, processLineResult_sectionNo]
    by_cases h : isDividerLine hd <;> (simp [h]; try omega)

/-- C1: the section counter starts at `0`, is incremented by exactly `1`
on every divider line (non-blank after trimming, all dashes) and is left
unchanged by every other line, and after the whole stream is consumed it
equals the number of divider lines of the input. -/
theorem section_counter_counts_dividers :
    initState.sectionNo = 0 ∧
    (∀ st ol, (processLineResult st ol).sectionNo =
        st.sectionNo + (if isDividerLine ol then 1 else 0)) ∧
    (∀ lines, (parseLines lines).sectionNo = countDividers lines) := by
  refine ⟨rfl, processLineResult_sectionNo, fun lines => ?_⟩
  unfold parseLines countDividers
  rw [parseLines_sectionNo_aux]
  simp [initState]

/-! ### Statistics conversion -/

lemma parse_stats_eq_six (value f0 f1 f2 f3 f4 f5 : List Char)
    (hs : splitAsciiWhitespace value = [f0, f1, f2, f3, f4, f5]) :
    parse_stats value =
      (match parseU128 f0, parseU128 f1, parseU128 f2,
             parseU128 f3, parseU128 f4, parseU128 f5 with
       | some t, some c, some s, some m, some fa, some e =>
         some ⟨t, c, s, m, fa, e⟩
       | _, _, _, _, _, _ => none) := by
  unfold parse_stats
  rw [hs]

/-- C2: whenever a footer statistics value tokenizes into exactly six
whitespace-delimited tokens and each token parses as an unsigned integer,
the conversion succeeds with the fields `total, copied, skipped, mismatch,
failed, extras` holding the six values in that fixed order, and dispatching
the value under the footer key `Files` stores exactly that record without a
warning. -/
theorem stats_six_tokens_convert (value f0 f1 f2 f3 f4 f5 : List Char)
    (n0 n1 n2 n3 n4 n5 : Nat) (r : RobocopyResult)
    (hsplit : splitAsciiWhitespace value = [f0, f1, f2, f3, f4, f5])
    (h0 : parseU128 f0 = some n0) (h1 : parseU128 f1 = some n1)
    (h2 : parseU128 f2 = some n2) (h3 : parseU128 f3 = some n3)
    (h4 : parseU128 f4 = some n4) (h5 : parseU128 f5 = some n5) :
    parse_stats value = some ⟨n0, n1, n2, n3, n4, n5⟩ ∧
    parse_footer r ("Files".toList) value =
      ({ r with stats :=
          { r.stats with files := some ⟨n0, n1, n2, n3, n4, n5⟩ } }, false) := by
  have hst : parse_stats value = some ⟨n0, n1, n2, n3, n4, n5⟩ := by
    rw [parse_stats_eq_six value f0 f1 f2 f3 f4 f5 hsplit,
      h0, h1, h2, h3, h4, h5]
  exact ⟨hst, pf_files_some r value _ hst⟩

/-- Witness for C2 at the concrete footer value from the spec. -/
theorem stats_six_tokens_convert_witness :
    parse_stats
        ("       10         8         2         0         0         0".toList)
      = some ⟨10, 8, 2, 0, 0, 0⟩ ∧
    parse_footer emptyResult ("Files".toList)
        ("       10         8         2         0         0         0".toList)
      = ({ emptyResult with stats :=
            { emptyResult.stats with files := some ⟨10, 8, 2, 0, 0, 0⟩ } },
         false) :=
  stats_six_tokens_convert _
    ("10".toList) ("8".toList) ("2".toList) ("0".toList) ("0".toList)
    ("0".toList) 10 8 2 0 0 0 emptyResult (by decide) (by decide) (by decide)
    (by decide) (by decide) (by decide) (by decide)

lemma parse_stats_none_of_bad (value : List Char)
    (hfail : (splitAsciiWhitespace value).length ≠ 6 ∨
      ∃ t ∈ splitAsciiWhitespace value, parseU128 t = none) :
    parse_stats value = none := by
  rcases hs : splitAsciiWhitespace value with _ | ⟨f0, _ | ⟨f1, _ | ⟨f2, _ |
    ⟨f3, _ | ⟨f4, _ | ⟨f5, _ | ⟨f6, rest⟩⟩⟩⟩⟩⟩⟩ <;>
    first
    | (unfold parse_stats; rw [hs]; done)
    | (rw [parse_stats_eq_six value f0 f1 f2 f3 f4 f5 hs]
       rw [hs] at hfail
       rcases hfail with hlen | ⟨t, ht, hnone⟩
       · exact absurd rfl hlen
       · simp only [List.mem_cons, List.not_mem_nil, or_false] at ht
         rcases ht with h | h | h | h | h | h <;> rw [h] at hnone <;>
           rw [hnone] <;>
           cases hq0 : parseU128 f0 <;> cases hq1 : parseU128 f1 <;>
           cases hq2 : parseU128 f2 <;> cases hq3 : parseU128 f3 <;>
           cases hq4 : parseU128 f4 <;> cases hq5 : parseU128 f5 <;> rfl)

/-- C3: a footer statistics value with a token count other than six, or
with a token that does not parse as an unsigned integer, fails conversion;
under any of the keys `Dirs`, `Files`, `Bytes` the result record is left
entirely unchanged (so the corresponding `CopyStat` stays unset and is
never partially populated) and a warning is recorded while the parse
continues. -/
theorem stats_failure_leaves_unset (value key : List Char)
    (r : RobocopyResult)
    (hkey : key = ("Dirs".toList) ∨ key = ("Files".toList) ∨
      key = ("Bytes".toList))
    (hfail : (splitAsciiWhitespace value).length ≠ 6 ∨
      ∃ t ∈ splitAsciiWhitespace value, parseU128 t = none) :
    parse_stats value = none ∧ parse_footer r key value = (r, true) := by
  have hnone := parse_stats_none_of_bad value hfail
  refine ⟨hnone, ?_⟩
  rcases hkey with h | h | h <;> subst h
  · exact pf_dirs_none r value hnone
  · exact pf_files_none r value hnone
  · exact pf_bytes_none r value hnone

/-- Witness for C3 at a five-token statistics value under the key
`Files`. -/
theorem stats_failure_leaves_unset_witness :
    parse_stats ("       10         8         2         0         0".toList)
      = none ∧
    parse_footer emptyResult ("Files".toList)
        ("       10         8         2         0         0".toList)
      = (emptyResult, true) :=
  stats_failure_leaves_unset _ _ emptyResult (Or.inr (Or.inl rfl))
    (Or.inl (by decide))

/-! ### Speed conversion -/

/-- C4: a footer `Speed` value of the form `<number> <unit>` (split at the
first space) sets the speed field exactly when the unit equals
`"Bytes/sec."` up to ASCII case and the number parses as an unsigned
integer; with no space separator, a different unit such as `"KB/sec."`, or
a non-numeric number, the speed stays unset and only a warning is
recorded. -/
theorem speed_conversion_correct :
    (∀ value n, parse_speed value = some n ↔
      ∃ v u, splitOnce ' ' value = some (v, u) ∧
        eqIgnoreAsciiCase u ("Bytes/sec.".toList) = true ∧
        parseU128 v = some n) ∧
    (∀ r value n, parse_speed value = some n →
      parse_footer r ("Speed".toList) value =
        ({ r with speed := some n }, false)) ∧
    (∀ r value, parse_speed value = none →
      parse_footer r ("Speed".toList) value = (r, true)) ∧
    parse_speed ("12345 Bytes/sec.".toList) = some 12345 ∧
    parse_speed ("12345 KB/sec.".toList) = none ∧
    parse_speed ("12345Bytes/sec.".toList) = none ∧
    parse_speed ("x Bytes/sec.".toList) = none := by
  refine ⟨fun value n => ?_, pf_speed_some, pf_speed_none,
    by decide, by decide, by decide, by decide⟩
  unfold parse_speed
  rcases hso : splitOnce ' ' value with _ | ⟨v, u⟩ <;> simp [hso]
  constructor
  · rintro ⟨ha, hb⟩
    exact ⟨v, u, ⟨rfl, rfl⟩, ha, hb⟩
  · rintro ⟨v1, u1, ⟨rfl, rfl⟩, ha, hb⟩
    exact ⟨ha, hb⟩

/-- Witness for C4 at the two concrete footer values from the spec. -/
theorem speed_conversion_correct_witness :
    parse_footer emptyResult ("Speed".toList) ("12345 Bytes/sec.".toList) =
      ({ emptyResult with speed := some 12345 }, false) ∧
    parse_footer emptyResult ("Speed".toList) ("12345 KB/sec.".toList) =
      (emptyResult, true) :=
  ⟨speed_conversion_correct.2.1 emptyResult _ 12345 (by decide),
   speed_conversion_correct.2.2.1 emptyResult _ (by decide)⟩

/-! ### Timestamp conversion -/

/-- C5: header `Started` and footer `Ended` values are parsed with the
fixed format `"%A, %B %e, %Y %r"`; the value
`"Monday, January  1, 2024 12:00:00 AM"` sets `started` to midnight of
2024-01-01, while `"not-a-date"` leaves `started` unset and emits a
warning. -/
theorem timestamp_conversion :
    (∀ r v, ((parse_header r ("Started".toList) v).1).started =
        (match parseDateTime v with
         | some dt => some dt
         | none => r.started) ∧
      (parse_header r ("Started".toList) v).2 = (parseDateTime v).isNone) ∧
    (∀ r v, ((parse_footer r ("Ended".toList) v).1).ended =
        (match parseDateTime v with
         | some dt => some dt
         | none => r.ended) ∧
      (parse_footer r ("Ended".toList) v).2 = (parseDateTime v).isNone) ∧
    parseDateTime ("Monday, January  1, 2024 12:00:00 AM".toList) =
      some ⟨2024, 1, 1, 0, 0, 0⟩ ∧
    parse_header emptyResult ("Started".toList)
        ("Monday, January  1, 2024 12:00:00 AM".toList) =
      ({ emptyResult with started := some ⟨2024, 1, 1, 0, 0, 0⟩ }, false) ∧
    parseDateTime ("not-a-date".toList) = none ∧
    parse_header emptyResult ("Started".toList) ("not-a-date".toList) =
      (emptyResult, true) := by
  refine ⟨fun r v => ?_, fun r v => ?_, by decide, by decide, by decide,
    by decide⟩
  · rcases hdt : parseDateTime v with _ | dt
    · rw [ph_started_none r v hdt]
      exact ⟨rfl, rfl⟩
    · rw [ph_started_some r v dt hdt]
      exact ⟨rfl, rfl⟩
  · rcases hdt : parseDateTime v with _ | dt
    · rw [pf_ended_none r v hdt]
      exact ⟨rfl, rfl⟩
    · rw [pf_ended_some r v dt hdt]
      exact ⟨rfl, rfl⟩

/-! ### Stream-level failure semantics -/

/-- C6: the parse fails exactly when the file cannot be opened; every
stream that opens is consumed to completion and yields a (possibly
partially-filled) result, per-line and per-field failures only adding
warnings. -/
theorem read_error_iff_open_failure :
    (∀ input, (∃ st, read_file input = Except.ok st) ↔ input ≠ none) ∧
    (∀ lines, read_file (some lines) = Except.ok (parseLines lines)) ∧
    read_file none = Except.error () := by
  refine ⟨fun input => ?_, fun lines => rfl, rfl⟩
  cases input with
  | none => simp [read_file]
  | some lines => simp [read_file]

/-! ### Repeated keys -/

/-- C7: assignment on dispatch is unconditional, so when a recognized key
occurs twice with successfully-converting values the final result holds
the value of the last occurrence, for every recognized header and footer
key. -/
theorem repeated_key_last_wins (r : RobocopyResult)
    (a1 a2 b1 b2 c1 c2 d1 d2 t1 t2 s1 s2 g1 g2 : List Char)
    (dt : DateTime) (n : Nat) (cs : CopyStat)
    (hdt : parseDateTime t2 = some dt)
    (hsp : parse_speed s2 = some n)
    (hst : parse_stats g2 = some cs) :
    ((parse_header (parse_header r ("Source".toList) a1).1
        ("Source".toList) a2).1).source = some a2 ∧
    ((parse_header (parse_header r ("Dest".toList) b1).1
        ("Dest".toList) b2).1).destination = some b2 ∧
    ((parse_header (parse_header r ("Files".toList) c1).1
        ("Files".toList) c2).1).files = some c2 ∧
    ((parse_header (parse_header r ("Options".toList) d1).1
        ("Options".toList) d2).1).options = some d2 ∧
    ((parse_header (parse_header r ("Started".toList) t1).1
        ("Started".toList) t2).1).started = some dt ∧
    ((parse_footer (parse_footer r ("Ended".toList) t1).1
        ("Ended".toList) t2).1).ended = some dt ∧
    ((parse_footer (parse_footer r ("Speed".toList) s1).1
        ("Speed".toList) s2).1).speed = some n ∧
    ((parse_footer (parse_footer r ("Dirs".toList) g1).1
        ("Dirs".toList) g2).1).stats.dirs = some cs ∧
    ((parse_footer (parse_footer r ("Files".toList) g1).1
        ("Files".toList) g2).1).stats.files = some cs ∧
    ((parse_footer (parse_footer r ("Bytes".toList) g1).1
        ("Bytes".toList) g2).1).stats.bytes = some cs := by
  refine ⟨?_, ?_, ?_, ?_, ?_, ?_, ?_, ?_, ?_, ?_⟩
  · rw [ph_source, ph_source]
  · rw [ph_dest, ph_dest]
  · rw [ph_files, ph_files]
  · rw [ph_options, ph_options]
  · rcases h1 : parseDateTime t1 with _ | dt1
    · rw [ph_started_none r t1 h1, ph_started_some _ t2 dt hdt]
    · rw [ph_started_some r t1 dt1 h1, ph_started_some _ t2 dt hdt]
  · rcases h1 : parseDateTime t1 with _ | dt1
    · rw [pf_ended_none r t1 h1, pf_ended_some _ t2 dt hdt]
    · rw [pf_ended_some r t1 dt1 h1, pf_ended_some _ t2 dt hdt]
  · rcases h1 : parse_speed s1 with _ | n1
    · rw [pf_speed_none r s1 h1, pf_speed_some _ s2 n hsp]
    · rw [pf_speed_some r s1 n1 h1, pf_speed_some _ s2 n hsp]
  · rcases h1 : parse_stats g1 with _ | cs1
    · rw [pf_dirs_none r g1 h1, pf_dirs_some _ g2 cs hst]
    · rw [pf_dirs_some r g1 cs1 h1, pf_dirs_some _ g2 cs hst]
  · rcases h1 : parse_stats g1 with _ | cs1
    · rw [pf_files_none r g1 h1, pf_files_some _ g2 cs hst]
    · rw [pf_files_some r g1 cs1 h1, pf_files_some _ g2 cs hst]
  · rcases h1 : parse_stats g1 with _ | cs1
    · rw [pf_bytes_none r g1 h1, pf_bytes_some _ g2 cs hst]
    · rw [pf_bytes_some r g1 cs1 h1, pf_bytes_some _ g2 cs hst]

/-- Witness for C7: a repeated `Started` header key keeps the second
(successfully converting) value. -/
theorem repeated_key_last_wins_witness :
    ((parse_header (parse_header emptyResult ("Started".toList)
        ("x".toList)).1 ("Started".toList)
        ("Monday, January  1, 2024 12:00:00 AM".toList)).1).started =
      some ⟨2024, 1, 1, 0, 0, 0⟩ :=
  (repeated_key_last_wins emptyResult ("a".toList) ("a".toList)
    ("a".toList) ("a".toList) ("a".toList) ("a".toList) ("a".toList)
    ("a".toList) ("x".toList)
    ("Monday, January  1, 2024 12:00:00 AM".toList) ("a".toList)
    ("1 Bytes/sec.".toList) ("a".toList) ("1 2 3 4 5 6".toList)
    ⟨2024, 1, 1, 0, 0, 0⟩ 1 ⟨1, 2, 3, 4, 5, 6⟩ (by decide) (by decide)
    (by decide)).2.2.2.2.1

/-! ### Lines that dispatch nothing -/

lemma mem_of_mem_trim {a : Char} {l : List Char} (h : a ∈ trim l) :
    a ∈ l := by
  unfold trim trimRight trimLeft at h
  rw [List.mem_reverse] at h
  have h1 : a ∈ (l.dropWhile isWS).reverse :=
    (List.dropWhile_sublist _).mem h
  rw [List.mem_reverse] at h1
  exact (List.dropWhile_sublist _).mem h1

lemma splitOnce_eq_none (c : Char) (l : List Char) (h : c ∉ l) :
    splitOnce c l = none := by
  induction l with
  | nil => rfl
  | cons x xs ih =>
    rw [List.mem_cons, not_or] at h
    unfold splitOnce
    rw [if_neg (fun he => h.1 he.symm), ih h.2]

lemma split_key_value_none_of_no_colon (l : List Char) (h : ':' ∉ l) :
    split_key_value l = none := by
  unfold split_key_value
  rw [splitOnce_eq_none ':' (trim l) (fun hm => h (mem_of_mem_trim hm))]

/-- C8: a line that is blank after trimming leaves the whole loop state
unchanged; a line without a colon, and a line processed while the section
counter is outside `{2, 4}`, leave the result record unchanged; and no
divider count ever makes the parse fail. -/
theorem non_dispatch_lines_frame (st : ParseState) (l : List Char) :
    ((trim l).isEmpty = true → processLine st l = st) ∧
    (':' ∉ l → (processLine st l).result = st.result) ∧
    (st.sectionNo ≠ 2 → st.sectionNo ≠ 4 →
      (processLine st l).result = st.result) ∧
    (∀ lines, ∃ st2, read_file (some lines) = Except.ok st2) := by
  refine ⟨fun hb => ?_, fun hc => ?_, fun h2 h4 => ?_,
    fun lines => ⟨parseLines lines, rfl⟩⟩
  · simp [processLine, hb]
  · have hskv : split_key_value (trim l) = none :=
      split_key_value_none_of_no_colon (trim l)
        (fun hm => hc (mem_of_mem_trim hm))
    unfold processLine
    by_cases h1 : (trim l).isEmpty
    · simp [h1]
    · by_cases hd : ((trim l).dropWhile (fun c => c = '-')).isEmpty
      · simp [h1, hd]
      · by_cases h2 : st.sectionNo = 2
        · simp [h1, hd, h2, hskv]
        · by_cases h4 : st.sectionNo = 4 <;> simp [h1, hd, h2, h4, hskv]
  · unfold processLine
    by_cases h1 : (trim l).isEmpty
    · simp [h1]
    · by_cases hd : ((trim l).dropWhile (fun c => c = '-')).isEmpty <;>
        simp [h1, hd, h2, h4]

/-- Witness for C8 at the empty line in the initial state. -/
theorem non_dispatch_lines_frame_witness :
    processLine initState ("".toList) = initState ∧
    (processLine initState ("".toList)).result = initState.result ∧
    (processLine initState ("".toList)).result = initState.result ∧
    ∃ st2, read_file (some []) = Except.ok st2 :=
  ⟨(non_dispatch_lines_frame initState ("".toList)).1 (by decide),
   (non_dispatch_lines_frame initState ("".toList)).2.1 (by decide),
   (non_dispatch_lines_frame initState ("".toList)).2.2.1 (by decide)
     (by decide),
   (non_dispatch_lines_frame initState ("".toList)).2.2.2 []⟩

/-! ### Determinism -/

/-- C9: the parse is a pure function of the input stream: equal inputs
yield equal results. -/
theorem parse_deterministic (i1 i2 : Option (List (Option (List Char))))
    (h : i1 = i2) : read_file i1 = read_file i2 := by
  rw [h]

/-- Witness for C9 at a concrete one-line input. -/
theorem parse_deterministic_witness :
    read_file (some [some ("ROBOCOPY".toList)]) =
      read_file (some [some ("ROBOCOPY".toList)]) :=
  parse_deterministic (some [some ("ROBOCOPY".toList)])
    (some [some ("ROBOCOPY".toList)]) rfl

/-! ### Dispatcher frames -/

/-- C10: for every key/value pair the header dispatcher never touches
`ended`, `speed` or `stats`, and the footer dispatcher never touches
`started`, `source`, `destination`, `files` or `options`; the key `Files`
sets the file-selection pattern string as a header line and the files
statistics record as a footer line, never the other. -/
theorem dispatcher_frame (r : RobocopyResult) (k v : List Char) :
    ((parse_header r k v).1.ended = r.ended ∧
     (parse_header r k v).1.speed = r.speed ∧
     (parse_header r k v).1.stats = r.stats) ∧
    ((parse_footer r k v).1.started = r.started ∧
     (parse_footer r k v).1.source = r.source ∧
     (parse_footer r k v).1.destination = r.destination ∧
     (parse_footer r k v).1.files = r.files ∧
     (parse_footer r k v).1.options = r.options) ∧
    (parse_header r ("Files".toList) v).1.files = some v ∧
    (parse_header r ("Files".toList) v).1.stats = r.stats ∧
    (parse_footer r ("Files".toList) v).1.files = r.files ∧
    (parse_footer r ("Files".toList) v).1.stats.files =
      (match parse_stats v with
       | some cs => some cs
       | none => r.stats.files) := by
  refine ⟨?_, ?_, ?_, ?_, ?_, ?_⟩
  · rcases hdt : parseDateTime v with _ | dt <;>
      (unfold parse_header; rw [hdt]; split_ifs <;> exact ⟨rfl, rfl, rfl⟩)
  · rcases hdt : parseDateTime v with _ | dt <;>
      rcases hsp : parse_speed v with _ | n <;>
      rcases hstv : parse_stats v with _ | cs <;>
      (unfold parse_footer; rw [hdt, hsp, hstv]; split_ifs <;>
        exact ⟨rfl, rfl, rfl, rfl, rfl⟩)
  · rw [ph_files]
  · rw [ph_files]
  · rcases hstv : parse_stats v with _ | cs
    · rw [pf_files_none r v hstv]
    · rw [pf_files_some r v cs hstv]
  · rcases hstv : parse_stats v with _ | cs
    · rw [pf_files_none r v hstv]
    · rw [pf_files_some r v cs hstv]

end Robocopy
